import Mathlib

/-!
Shallow embedding of `src/api.py` (class `PixivApi`): a small Pixiv web-API
client whose core is session-lifecycle logic (load/save a persisted session
record, validity probing, login, result-envelope parsing).

External collaborators (the HTTP transport, the `json` library's parser, the
interactive prompts) are modelled at the boundary: an HTTP response is a value
carrying a status code, a body that either is well-formed JSON or is not, a
`Set-Cookie` header and a URL; a file's content likewise either parses to a
JSON value or does not.  Only the shape and validation logic of `api.py`
itself is translated.
-/

namespace PixivApi

/-- A JSON value, as produced by Python's `json.load` / `json.loads`.
Numbers are modelled as integers (every number the client inspects is an id). -/
inductive Json where
  | null
  | bool (b : Bool)
  | num (n : Int)
  | str (s : String)
  | arr (xs : List Json)
  | obj (kvs : List (String × Json))


/-- Python truthiness of a JSON value (`if loaded_session:` etc.):
`None`, `False`, `0`, `""`, `[]`, `{}` are falsy, everything else truthy. -/
def Json.truthy : Json → Bool
  | .null => false
  | .bool b => b
  | .num n => n != 0
  | .str s => s ≠ ""
  | .arr xs => !xs.isEmpty
  | .obj kvs => !kvs.isEmpty

/-- Top-level keys of a JSON object (empty for non-objects). -/
def Json.keys : Json → List String
  | .obj kvs => kvs.map Prod.fst
  | _ => []

/-- Python exceptions the translated code can raise.
`fetchError` models `Pixiv_Get_Error(url)` from `utils` (the spec's
`FetchError`); `authError` models the `RuntimeError('[ERROR] connection
failed!', status)` raised by `login` (the spec's `AuthError`). -/
inductive PyExc where
  | jsonDecodeError
  | keyError (key : String)
  | typeError
  | attributeError
  | fetchError (url : String)
  | authError (status : Nat)


/-- Raw text (a file's content, a response body): either it parses as JSON or
it does not (truncated JSON, empty text, non-JSON bytes all fall in
`malformed`). -/
inductive RawText where
  | malformed
  | wellFormed (j : Json)


/-- `json.load` / `json.loads` at this granularity: malformed text raises
`json.JSONDecodeError`. -/
def json_loads : RawText → Except PyExc Json
  | .malformed => .error .jsonDecodeError
  | .wellFormed j => .ok j

/-- First value bound to `key` in an association list (Python dict lookup's
result on the dicts `json.load` produces, which bind each key once). -/
def lookupKey : List (String × Json) → String → Option Json
  | [], _ => none
  | (k, v) :: rest, key => if k = key then some v else lookupKey rest key

/-- Python subscripting `j[key]` on a parsed JSON value: a `KeyError` when the
key is absent from an object, a `TypeError` when `j` is not an object. -/
def getitem (j : Json) (key : String) : Except PyExc Json :=
  match j with
  | .obj kvs =>
    match lookupKey kvs key with
    | some v => .ok v
    | none => .error (.keyError key)
  | _ => .error .typeError

/-- Python `str()` of a JSON value, used on `respond['response']['user']['id']`
(a number in every exchange the client accepts).  The reprs of containers are
abstracted; no theorem depends on them. -/
def py_str : Json → String
  | .null => "None"
  | .bool true => "True"
  | .bool false => "False"
  | .num n => toString n
  | .str s => s
  | .arr _ => "unmodelled-list-repr"
  | .obj _ => "unmodelled-dict-repr"

/-- The in-memory session fields of a `PixivApi` instance.  In Python they can
hold any value `json.load` produced, so each field is a `Json` value; the class
defaults are `access_token = None`, `user_id = ''`, `session_id = None`. -/
structure MemState where
  access_token : Json
  user_id : Json
  session_id : Json


/-- The class-attribute defaults of `PixivApi`. -/
def initMem : MemState := { access_token := .null, user_id := .str "", session_id := .null }

/-- Client state: the in-memory fields plus the persisted `session` file
(`none` when the file does not exist). -/
structure ClientState where
  mem : MemState
  file : Option RawText


/-- An HTTP response as the client sees it: status code, body text, the
`Set-Cookie` header (`none` when the header is absent) and the request URL. -/
structure HttpResp where
  status_code : Nat
  text : RawText
  set_cookie : Option String
  url : String


/-- The status codes `api.py` treats as transport-level success
(`[200, 301, 302]` in `check_expired` and `login`). -/
def statusOkList : List Nat := [200, 301, 302]

/-- `PixivApi.load_session` (src/api.py lines 36-45).  The body runs
`json.load` and the three field assignments inside `try: ... finally: return
loaded_session`, so every exception (decode error, `KeyError`, `TypeError`) is
swallowed by the `return` in `finally` and the current value of
`loaded_session` is returned; field assignments made before a failing lookup
remain in effect.  The `Except` result is the Python exception channel. -/
def load_session (st : MemState) (content : RawText) :
    Except PyExc (MemState × Option Json) :=
  match json_loads content with
  | .error _ => .ok (st, none)
  | .ok j =>
    match getitem j "access_token" with
    | .error _ => .ok (st, some j)
    | .ok a =>
      let st1 := { st with access_token := a }
      match getitem j "user_id" with
      | .error _ => .ok (st1, some j)
      | .ok u =>
        let st2 := { st1 with user_id := u }
        match getitem j "session_id" with
        | .error _ => .ok (st2, some j)
        | .ok s => .ok ({ st2 with session_id := s }, some j)

/-- The `valid` flag computed by `PixivApi.check_expired` (src/api.py lines
52-61): true iff the status code is in `[200, 301, 302]` and the body parses
as JSON whose `'status'` entry equals the string `'success'` (any exception
inside the `try`, including a `KeyError` on `'status'` or a `TypeError` on a
non-object body, is caught by `except Exception` and leaves `valid` false). -/
def check_valid (r : HttpResp) : Bool :=
  if statusOkList.contains r.status_code then
    match json_loads r.text with
    | .error _ => false
    | .ok respond =>
      match getitem respond "status" with
      | .error _ => false
      | .ok v =>
        match v with
        | .str s => s == "success"
        | _ => false
  else false

/-- `PixivApi.check_expired` (src/api.py lines 47-67) applied to the probe
response `r`: when `valid` does not hold, `self.access_token = None`; returns
the updated state and the returned boolean. -/
def check_expired (st : ClientState) (r : HttpResp) : ClientState × Bool :=
  if check_valid r then (st, true)
  else ({ st with mem := { st.mem with access_token := Json.null } }, false)

/-- The flat object `save_session` serializes: exactly the keys
`access_token`, `user_id`, `session_id`, bound to the in-memory fields. -/
def sessionJson (m : MemState) : Json :=
  .obj [("access_token", m.access_token), ("user_id", m.user_id),
        ("session_id", m.session_id)]

/-- `PixivApi.save_session` (src/api.py lines 69-76): overwrite the `session`
file with `json.dump` of the three-field record. -/
def save_session (st : ClientState) : ClientState :=
  { st with file := some (.wellFormed (sessionJson st.mem)) }

/-- The form body `login` posts to the token endpoint (src/api.py lines
122-128); it is consumed by the external HTTP transport and appears in no
response processing. -/
def login_request_body (username password : String) : List (String × String) :=
  [("username", username), ("password", password), ("grant_type", "password"),
   ("client_id", "bYGKuGVw91e0NMfPGp44euvGt59s"),
   ("client_secret", "HP3RmkgAmEGro0gn1x9ioawQE8WMfvLXDz3ZqxpK")]

/-- One step of `re.search(r'PHPSESSID=(.*?);', cookie)`: the lazy capture
from the current position up to the first `';'`, failing at end of string or
at a newline (`.` does not match `'\n'`). -/
def takeUntilSemi : List Char → Option (List Char)
  | [] => none
  | c :: rest =>
    if c = ';' then some []
    else if c = '\n' then none
    else
      match takeUntilSemi rest with
      | some v => some (c :: v)
      | none => none

/-- Whether `pat` occurs at the start of `s`. -/
def startsWithChars : List Char → List Char → Bool
  | [], _ => true
  | _ :: _, [] => false
  | p :: ps, c :: cs => p == c && startsWithChars ps cs

/-- Leftmost match of `PHPSESSID=(.*?);` over the character list: at each
position where the literal `PHPSESSID=` matches and a `';'` follows on the
same line, the capture group is the text between them; otherwise the search
continues one position to the right. -/
def searchPHPSESSID : List Char → Option (List Char)
  | [] => none
  | c :: rest =>
    if startsWithChars "PHPSESSID=".toList (c :: rest) then
      match takeUntilSemi ((c :: rest).drop 10) with
      | some v => some v
      | none => searchPHPSESSID rest
    else searchPHPSESSID rest

/-- `re.search(r'PHPSESSID=(.*?);', cookie)` followed by `.group(1)`:
`none` when the pattern does not occur (where the Python code would raise
`AttributeError` on `None.group`). -/
def extract_phpsessid (cookie : String) : Option String :=
  (searchPHPSESSID cookie.toList).map fun cs => String.mk cs

/-- `PixivApi.login` (src/api.py lines 108-143) applied to the exchange
response `r` (the POST itself, built from `login_request_body`, is performed
by the external transport).  On a status outside `[200, 301, 302]` it raises
`RuntimeError('[ERROR] connection failed!', r.status_code)` (`authError`).
Otherwise it parses the body, assigns `access_token`, then
`user_id = str(...)`, reads the `Set-Cookie` header (`KeyError` when absent),
extracts the `PHPSESSID` value (`AttributeError` when the pattern is absent),
assigns `session_id` and calls `save_session`.  An `error` result carries the
exception together with the state at the raise point (assignments already made
persist on the instance). -/
def login (username password : String) (r : HttpResp) (st : ClientState) :
    Except (PyExc × ClientState) ClientState :=
  if statusOkList.contains r.status_code then
    match json_loads r.text with
    | .error e => .error (e, st)
    | .ok respond =>
      match getitem respond "response" with
      | .error e => .error (e, st)
      | .ok resp =>
        match getitem resp "access_token" with
        | .error e => .error (e, st)
        | .ok tok =>
          let st1 := { st with mem := { st.mem with access_token := tok } }
          match getitem resp "user" with
          | .error e => .error (e, st1)
          | .ok user =>
            match getitem user "id" with
            | .error e => .error (e, st1)
            | .ok uid =>
              let st2 := { st1 with mem := { st1.mem with user_id := .str (py_str uid) } }
              match r.set_cookie with
              | none => .error (.keyError "Set-Cookie", st2)
              | some cookie =>
                match extract_phpsessid cookie with
                | none => .error (.attributeError, st2)
                | some sid =>
                  let st3 := { st2 with mem := { st2.mem with session_id := .str sid } }
                  .ok (save_session st3)
  else .error (.authError r.status_code, st)

/-- `PixivApi.login_required` (src/api.py lines 145-158): when
`self.access_token` is falsy, run the interactive login path (prompting,
`login`, retry loop, possible `sys.exit`), here abstracted as `doAuth`, which
returns the resulting state and the number of authentication network calls it
performed; when the token is truthy, do nothing. -/
def login_required (st : ClientState) (doAuth : ClientState → ClientState × Nat) :
    ClientState × Nat :=
  if st.mem.access_token.truthy then (st, 0) else doAuth st

/-- `n` successive calls of `login_required`, accumulating the number of
authentication network calls performed. -/
def login_required_iter (doAuth : ClientState → ClientState × Nat) :
    Nat → ClientState → ClientState × Nat
  | 0, st => (st, 0)
  | n + 1, st =>
    let p := login_required st doAuth
    let q := login_required_iter doAuth n p.1
    (q.1, p.2 + q.2)

/-- `PixivApi.parse_result` (src/api.py lines 160-176): parse the body; when
`data['status'] == 'success'` return `data['response']`, otherwise raise
`Pixiv_Get_Error(r.url)` (`fetchError`).  A decode error, a missing
`'status'` key or a non-object body propagates as its own exception. -/
def parse_result (r : HttpResp) : Except PyExc Json :=
  match json_loads r.text with
  | .error e => .error e
  | .ok data =>
    match getitem data "status" with
    | .error e => .error e
    | .ok v =>
      match v with
      | .str s => if s == "success" then getitem data "response" else .error (.fetchError r.url)
      | _ => .error (.fetchError r.url)

/-- The class attribute `image_sizes` of `PixivApi`. -/
def image_sizes : String := "px_128x128,px_480mw,small,medium,large"

/-- The class attribute `profile_image_sizes` of `PixivApi`. -/
def profile_image_sizes : String := "px_170x170,px_50x50"

/-- The query parameters `get_ranking_illustrations` builds (src/api.py lines
253-263): the fixed seven entries, plus `date` appended last when `if date:`
holds, i.e. when the string is non-empty. -/
def get_ranking_params (mode date : String) (per_page page : Int) :
    List (String × Json) :=
  let params : List (String × Json) :=
    [("mode", .str mode), ("page", .num page), ("per_page", .num per_page),
     ("include_stats", .bool true), ("include_sanity_level", .bool true),
     ("image_sizes", .str image_sizes),
     ("profile_image_sizes", .str profile_image_sizes)]
  if date = "" then params else params ++ [("date", .str date)]

/-- A synthetic successful login-exchange response: status 200, body
`{"response": {"access_token": "tok", "user": {"id": 42}}}`, header
`Set-Cookie: PHPSESSID=abc123; Path=/`. -/
def sampleLoginResp : HttpResp :=
  { status_code := 200
    text := .wellFormed (.obj
      [("response", .obj
        [("access_token", .str "tok"), ("user", .obj [("id", .num 42)])])])
    set_cookie := some "PHPSESSID=abc123; Path=/"
    url := "https://oauth.secure.pixiv.net/auth/token" }

/-- The client state `login` produces from `sampleLoginResp`. -/
def sampleLoginResult : ClientState :=
  { mem := { access_token := .str "tok", user_id := .str "42", session_id := .str "abc123" }
    file := some (.wellFormed (.obj
      [("access_token", .str "tok"), ("user_id", .str "42"),
       ("session_id", .str "abc123")])) }

/-! ## Helper lemmas -/

/-- The transport-success test `r.status_code in [200, 301, 302]`, as a
proposition. -/
lemma contains_statusOk_iff (code : Nat) :
    statusOkList.contains code = true ↔ (code = 200 ∨ code = 301 ∨ code = 302) := by
  simp [statusOkList]

/-- On well-formed bodies, `check_valid` holds iff the parsed object binds
`'status'` to the string `'success'`. -/
lemma check_valid_iff (r : HttpResp) :
    check_valid r = true ↔
      ((r.status_code = 200 ∨ r.status_code = 301 ∨ r.status_code = 302)
        ∧ ∃ j, r.text = .wellFormed j ∧ getitem j "status" = .ok (.str "success")) := by
  rw [← contains_statusOk_iff]
  unfold check_valid
  cases hs : statusOkList.contains r.status_code with
  | false => simp
  | true =>
    simp only [if_true, true_and]
    rcases r with ⟨code, text, ck, url⟩
    cases text with
    | malformed => simp [json_loads]
    | wellFormed j =>
      simp only [json_loads]
      cases hg : getitem j "status" with
      | error e => simp [hg]
      | ok v =>
        cases v with
        | null => simp [hg]
        | bool b => simp [hg]
        | num n => simp [hg]
        | str s =>
          simp only [hg]
          constructor
          · intro hb
            exact ⟨j, rfl, by rw [hg, beq_iff_eq.mp hb]⟩
          · rintro ⟨j2, hj2, hg2⟩
            have hjj : j = j2 := by injection hj2
            subst hjj
            rw [hg] at hg2
            have hs2 : Json.str s = Json.str "success" := by injection hg2
            have hss : s = "success" := by injection hs2
            simp [hss]
        | arr xs => simp [hg]
        | obj kvs => simp [hg]

/-- The boolean `check_expired` returns is exactly `check_valid`. -/
lemma check_expired_snd (st : ClientState) (r : HttpResp) :
    (check_expired st r).2 = check_valid r := by
  unfold check_expired
  cases check_valid r <;> simp

/-! ## Claims -/

/-- **C1**, counterexample to the claim as stated: for the session-file
content `{"user_id": "42"}` — valid JSON missing the required keys
`access_token` and `session_id` — `load_session` does not return the
absent/no-session result: it returns the parsed object itself, which is
truthy, so `__init__` treats it as a present record and proceeds to the
expiry check instead of taking the not-logged-in path directly. -/
theorem C1_counterexample :
    load_session initMem (.wellFormed (.obj [("user_id", .str "42")]))
      = .ok (initMem, some (.obj [("user_id", .str "42")]))
    ∧ (Json.obj [("user_id", .str "42")]).truthy = true :=
  ⟨rfl, rfl⟩

/-- **C1**, amended: `load_session` never raises on any file content (the
`return` in `finally` swallows every exception); content that does not parse
as JSON yields the absent result `None` with the in-memory fields untouched;
but content that is valid JSON — even valid JSON missing a required key —
yields the parsed value itself, which the constructor treats as a present
record whenever it is truthy. -/
theorem C1_load_session_never_raises (st : MemState) (c : RawText) :
    (∃ st2 r, load_session st c = .ok (st2, r))
    ∧ (c = .malformed → load_session st c = .ok (st, none))
    ∧ (∀ j, c = .wellFormed j → ∃ st2, load_session st c = .ok (st2, some j)) := by
  cases c with
  | malformed =>
    exact ⟨⟨st, none, rfl⟩, fun _ => rfl, fun j h => RawText.noConfusion h⟩
  | wellFormed j =>
    have key : ∃ st2, load_session st (.wellFormed j) = .ok (st2, some j) := by
      cases h1 : getitem j "access_token" with
      | error e => exact ⟨st, by simp [load_session, json_loads, h1]⟩
      | ok a =>
        cases h2 : getitem j "user_id" with
        | error e =>
          exact ⟨{ st with access_token := a },
            by simp [load_session, json_loads, h1, h2]⟩
        | ok u =>
          cases h3 : getitem j "session_id" with
          | error e =>
            exact ⟨{ st with access_token := a, user_id := u },
              by simp [load_session, json_loads, h1, h2, h3]⟩
          | ok s2 =>
            exact ⟨{ access_token := a, user_id := u, session_id := s2 },
              by simp [load_session, json_loads, h1, h2, h3]⟩
    rcases key with ⟨st2, hk⟩
    refine ⟨⟨st2, some j, hk⟩, fun h => RawText.noConfusion h, fun j2 h => ?_⟩
    have hj : j = j2 := by injection h
    subst hj
    exact ⟨st2, hk⟩

/-- **C1**, witness: the amended theorem at the empty/unparsable content. -/
theorem C1_witness :
    load_session initMem .malformed = .ok (initMem, none) :=
  (C1_load_session_never_raises initMem .malformed).2.1 rfl

/-- **C2**: `check_expired` returns the VALID verdict iff the probe's status
code is in `{200, 301, 302}` and its body parses as JSON whose `status`
discriminator is the string `success`; in every other case it returns the
EXPIRED verdict and clears the in-memory access token. -/
theorem C2_check_expired_classification (st : ClientState) (r : HttpResp) :
    ((check_expired st r).2 = true ↔
      ((r.status_code = 200 ∨ r.status_code = 301 ∨ r.status_code = 302)
        ∧ ∃ j, r.text = .wellFormed j ∧ getitem j "status" = .ok (.str "success")))
    ∧ ((check_expired st r).2 = false →
        (check_expired st r).1.mem.access_token = .null) := by
  constructor
  · rw [check_expired_snd]
    exact check_valid_iff r
  · intro h
    rw [check_expired_snd] at h
    simp [check_expired, h]

/-- **C2**, witness: a 404 probe response with a success body is EXPIRED and
the token is cleared. -/
theorem C2_witness :
    (check_expired ⟨⟨.str "tok", .str "1", .str "sid"⟩, none⟩
        ⟨404, .wellFormed (.obj [("status", .str "success")]), none, "u"⟩).1.mem.access_token
      = .null :=
  (C2_check_expired_classification ⟨⟨.str "tok", .str "1", .str "sid"⟩, none⟩
      ⟨404, .wellFormed (.obj [("status", .str "success")]), none, "u"⟩).2 rfl

/-- **C5**: saving a credential record and then loading the written file
content yields an identical record — the same three fields with the same
values (for any prior in-memory state `st0` of the loading instance). -/
theorem C5_round_trip (st : ClientState) (st0 : MemState) :
    (save_session st).file = some (.wellFormed (sessionJson st.mem))
    ∧ load_session st0 (.wellFormed (sessionJson st.mem))
        = .ok (st.mem, some (sessionJson st.mem)) :=
  ⟨rfl, rfl⟩

/-- **C7**: a non-empty `date` argument appears as the `date` query parameter
of the ranking fetch with exactly its value; with the default (omitted,
empty) `date`, the `date` key is absent from the outgoing parameters. -/
theorem C7_ranking_date_param (mode : String) (per_page page : Int) :
    (∀ date : String, date ≠ "" →
      lookupKey (get_ranking_params mode date per_page page) "date"
        = some (.str date))
    ∧ lookupKey (get_ranking_params mode "" per_page page) "date" = none := by
  constructor
  · intro date hd
    simp [get_ranking_params, lookupKey, hd]
  · rfl

/-- **C7**, witness: the ranking fetch at `date = "2015-04-01"`. -/
theorem C7_witness :
    lookupKey (get_ranking_params "daily" "2015-04-01" 100 1) "date"
      = some (.str "2015-04-01") :=
  (C7_ranking_date_param "daily" 100 1).1 "2015-04-01" (by decide)

/-- **C8**: while the in-memory access token is truthy (the VALID state),
any number of `login_required` calls performs zero authentication calls and
leaves the client state unchanged, whatever the interactive login path
`doAuth` would do. -/
theorem C8_login_required_idempotent (st : ClientState)
    (doAuth : ClientState → ClientState × Nat) (n : Nat)
    (h : st.mem.access_token.truthy = true) :
    login_required_iter doAuth n st = (st, 0) := by
  induction n with
  | zero => rfl
  | succ k ih =>
    simp [login_required_iter, login_required, h, ih]

/-- **C8**, witness: three repeated calls in a VALID state, against an
authentication path that would count one call and mutate nothing. -/
theorem C8_witness :
    login_required_iter (fun s => (s, 1)) 3 ⟨⟨.str "tok", .str "42", .str "sid"⟩, none⟩
      = (⟨⟨.str "tok", .str "42", .str "sid"⟩, none⟩, 0) :=
  C8_login_required_idempotent ⟨⟨.str "tok", .str "42", .str "sid"⟩, none⟩
    (fun s => (s, 1)) 3 rfl

/-- **C10**: when `check_expired` reports EXPIRED it clears exactly the
in-memory `access_token`; `user_id`, `session_id` and the persisted session
file are untouched by the check. -/
theorem C10_check_expired_frame (st : ClientState) (r : HttpResp)
    (h : (check_expired st r).2 = false) :
    (check_expired st r).1.mem.access_token = .null
    ∧ (check_expired st r).1.mem.user_id = st.mem.user_id
    ∧ (check_expired st r).1.mem.session_id = st.mem.session_id
    ∧ (check_expired st r).1.file = st.file := by
  rw [check_expired_snd] at h
  simp [check_expired, h]

/-- **C10**, witness: a 500 probe with unparseable body against a fully
populated state. -/
theorem C10_witness :
    (check_expired ⟨⟨.str "tok", .str "7", .str "sid"⟩, some .malformed⟩
        ⟨500, .malformed, none, "u"⟩).1.mem.access_token = .null
    ∧ (check_expired ⟨⟨.str "tok", .str "7", .str "sid"⟩, some .malformed⟩
        ⟨500, .malformed, none, "u"⟩).1.mem.user_id = .str "7"
    ∧ (check_expired ⟨⟨.str "tok", .str "7", .str "sid"⟩, some .malformed⟩
        ⟨500, .malformed, none, "u"⟩).1.mem.session_id = .str "sid"
    ∧ (check_expired ⟨⟨.str "tok", .str "7", .str "sid"⟩, some .malformed⟩
        ⟨500, .malformed, none, "u"⟩).1.file = some .malformed :=
  C10_check_expired_frame ⟨⟨.str "tok", .str "7", .str "sid"⟩, some .malformed⟩
    ⟨500, .malformed, none, "u"⟩ rfl

/-- **C3**: a login exchange with transport-success status, a body holding
`response.access_token` and a numeric `response.user.id`, and a `Set-Cookie`
header matching `PHPSESSID=<value>;` leaves the client holding the record
(body token, id coerced to string, extracted cookie value) and persists
exactly that record to the session file before returning. -/
theorem C3_login_success (u p : String) (r : HttpResp) (st : ClientState)
    (body resp user tok : Json) (n : Int) (cookie sid : String)
    (hstatus : r.status_code = 200 ∨ r.status_code = 301 ∨ r.status_code = 302)
    (hbody : r.text = .wellFormed body)
    (hresp : getitem body "response" = .ok resp)
    (htok : getitem resp "access_token" = .ok tok)
    (huser : getitem resp "user" = .ok user)
    (hid : getitem user "id" = .ok (.num n))
    (hck : r.set_cookie = some cookie)
    (hsid : extract_phpsessid cookie = some sid) :
    login u p r st = .ok
      { mem := { access_token := tok, user_id := .str (toString n),
                 session_id := .str sid }
        file := some (.wellFormed (.obj
          [("access_token", tok), ("user_id", .str (toString n)),
           ("session_id", .str sid)])) } := by
  have hc : statusOkList.contains r.status_code = true :=
    (contains_statusOk_iff r.status_code).mpr hstatus
  simp [login, hc, hbody, json_loads, hresp, htok, huser, hid, hck, hsid,
        save_session, sessionJson, py_str]
  simpa [statusOkList] using hstatus

/-- **C3**, witness: the synthetic 200 response of the spec
(`PHPSESSID=abc123; Path=/`, token `tok`, id `42`). -/
theorem C3_witness :
    login "alice" "hunter2" sampleLoginResp ⟨initMem, none⟩ = .ok sampleLoginResult :=
  C3_login_success "alice" "hunter2" sampleLoginResp ⟨initMem, none⟩
    (.obj [("response", .obj
      [("access_token", .str "tok"), ("user", .obj [("id", .num 42)])])])
    (.obj [("access_token", .str "tok"), ("user", .obj [("id", .num 42)])])
    (.obj [("id", .num 42)]) (.str "tok") 42 "PHPSESSID=abc123; Path=/" "abc123"
    (Or.inl rfl) rfl rfl rfl rfl rfl rfl rfl

/-- **C4**: a login exchange whose status is outside `{200, 301, 302}`
raises the connection-failure error carrying that status code, and the
client state — in particular the persisted session file — is unchanged. -/
theorem C4_login_failure (u p : String) (r : HttpResp) (st : ClientState)
    (h : ¬(r.status_code = 200 ∨ r.status_code = 301 ∨ r.status_code = 302)) :
    login u p r st = .error (.authError r.status_code, st)
    ∧ ∀ e st2, login u p r st = .error (e, st2) → st2.file = st.file := by
  have hc : statusOkList.contains r.status_code = false := by
    cases hcc : statusOkList.contains r.status_code
    · rfl
    · exact absurd ((contains_statusOk_iff r.status_code).mp hcc) h
  have hneg : ¬ (statusOkList.contains r.status_code = true) := by
    rw [hc]
    simp
  have he : login u p r st = .error (.authError r.status_code, st) := by
    unfold login
    rw [if_neg hneg]
  refine ⟨he, fun e st2 h2 => ?_⟩
  rw [he] at h2
  have hp : ((PyExc.authError r.status_code, st) : PyExc × ClientState) = (e, st2) := by
    injection h2
  have h3 : st = st2 := congrArg Prod.snd hp
  exact congrArg ClientState.file h3.symm

/-- **C4**, witness: a 403 exchange against a fresh client. -/
theorem C4_witness :
    login "alice" "hunter2" ⟨403, .malformed, none, "url"⟩ ⟨initMem, none⟩
      = .error (.authError 403, ⟨initMem, none⟩) :=
  (C4_login_failure "alice" "hunter2" ⟨403, .malformed, none, "url"⟩
    ⟨initMem, none⟩ (by decide)).1

/-- **C6**: when the query body's `status` discriminator is the string
`success`, `parse_result` returns the `response` payload unchanged; when the
discriminator is anything else, it raises the fetch error carrying the
request URL and the payload is never returned. -/
theorem C6_envelope_contract (r : HttpResp) (j : Json)
    (hbody : r.text = .wellFormed j) :
    (∀ payload, getitem j "status" = .ok (.str "success") →
      getitem j "response" = .ok payload → parse_result r = .ok payload)
    ∧ (∀ v, getitem j "status" = .ok v → v ≠ .str "success" →
        parse_result r = .error (.fetchError r.url)) := by
  constructor
  · intro payload hs hp
    simp [parse_result, hbody, json_loads, hs, hp]
  · intro v hs hv
    cases v with
    | null => simp [parse_result, hbody, json_loads, hs]
    | bool b => simp [parse_result, hbody, json_loads, hs]
    | num m => simp [parse_result, hbody, json_loads, hs]
    | str s =>
      have hne : s ≠ "success" := fun hcontra => hv (by rw [hcontra])
      have hb : (s == "success") = false := beq_eq_false_iff_ne.mpr hne
      simp [parse_result, hbody, json_loads, hs, hb]
    | arr xs => simp [parse_result, hbody, json_loads, hs]
    | obj kvs => simp [parse_result, hbody, json_loads, hs]

/-- **C6**, witness: a success envelope returns its payload; a failure
envelope raises the fetch error with the request URL. -/
theorem C6_witness :
    parse_result ⟨200, .wellFormed (.obj
        [("status", .str "success"), ("response", .arr [.obj [("id", .num 1)]])]),
        none, "https://public-api.secure.pixiv.net/v1/ranking/all"⟩
      = .ok (.arr [.obj [("id", .num 1)]])
    ∧ parse_result ⟨200, .wellFormed (.obj [("status", .str "failure")]), none, "u2"⟩
      = .error (.fetchError "u2") :=
  ⟨(C6_envelope_contract ⟨200, .wellFormed (.obj
      [("status", .str "success"), ("response", .arr [.obj [("id", .num 1)]])]),
      none, "https://public-api.secure.pixiv.net/v1/ranking/all"⟩
      (.obj [("status", .str "success"), ("response", .arr [.obj [("id", .num 1)]])])
      rfl).1 (.arr [.obj [("id", .num 1)]]) rfl rfl,
   (C6_envelope_contract ⟨200, .wellFormed (.obj [("status", .str "failure")]), none, "u2"⟩
      (.obj [("status", .str "failure")]) rfl).2 (.str "failure") rfl
      (fun hcontra => by injection hcontra with hs; exact absurd hs (by decide))⟩

/-- **C9**: `login` never persists or retains the raw password — its entire
result is independent of the password (two runs differing only in the
password but seeing the same server response produce identical states and
persist identical records), and the record it persists on success is exactly
the three-key object `access_token`/`user_id`/`session_id` holding the
in-memory credentials derived from the response. -/
theorem C9_password_independence (u p1 p2 : String) (r : HttpResp) (st : ClientState) :
    login u p1 r st = login u p2 r st
    ∧ ∀ st2, login u p1 r st = .ok st2 →
        st2.file = some (.wellFormed (sessionJson st2.mem))
        ∧ Json.keys (sessionJson st2.mem) = ["access_token", "user_id", "session_id"] := by
  constructor
  · rfl
  · intro st2 h
    unfold login at h
    repeat' split at h
    all_goals first
      | exact Except.noConfusion h
      | (injection h with h2; subst h2; exact ⟨rfl, rfl⟩)

/-- **C9**, witness: two logins differing only in the password, against the
synthetic successful exchange, agree entirely; the record the run persists is
the three-key session object. -/
theorem C9_witness :
    login "alice" "pw1" sampleLoginResp ⟨initMem, none⟩
      = login "alice" "pw2" sampleLoginResp ⟨initMem, none⟩
    ∧ (sampleLoginResult.file = some (.wellFormed (sessionJson sampleLoginResult.mem))
        ∧ Json.keys (sessionJson sampleLoginResult.mem)
          = ["access_token", "user_id", "session_id"]) :=
  ⟨(C9_password_independence "alice" "pw1" "pw2" sampleLoginResp ⟨initMem, none⟩).1,
   (C9_password_independence "alice" "pw1" "pw2" sampleLoginResp ⟨initMem, none⟩).2
     sampleLoginResult rfl⟩

end PixivApi
